import Mathlib

/-!
Shallow embedding of the element-interaction and wait engine of the OrangeHRM
selenium page-object framework: the BasePage facade (src/pages/base_page.py),
the LoginPage and DashboardPage objects (src/pages/login_page.py,
src/pages/dashboard_page.py), the configuration constants (src/config/config.py,
src/constants/selectors.py) and the browser dispatch of
src/utils/driver_manager.py.

The browser is modelled as a trace of page snapshots indexed by poll instants;
selenium's WebDriverWait is a fuel-indexed polling loop over the trace, and every
Python method that can raise returns in the Except monad over a small type of
Python exception values.
-/

/-- Python exception values raised by the embedded code. The actionFailed
constructor embeds the spec's ActionFailed{selector, cause} taxonomy entry so
that the errors the code actually surfaces can be compared against it. -/
inductive PyError where
  | timeoutException
  | noSuchElement
  | nameError (missing : String)
  | valueError (msg : String)
  | actionFailed (selector : String) (causeMsg : String)
  | other (msg : String)
deriving DecidableEq, Repr

/-- A rendered DOM element as a selenium WebElement exposes it: its text, whether
it is displayed, whether it is enabled, and the outcome of invoking its click
primitive (none = the click succeeds, some e = the click raises e). -/
structure Element where
  text : String
  visible : Bool
  enabled : Bool
  clickFault : Option PyError := none
deriving DecidableEq, Repr

/-- One instant of the browser: the current URL and the raw element query
(driver.find_elements), which returns the matching elements in document order or
raises (e.g. an invalid-selector error). -/
structure Snapshot where
  url : String
  query : String → Except PyError (List Element)

/-- The page as seen at successive poll instants of a WebDriverWait loop. -/
abbrev Trace := Nat → Snapshot

/-- The trace as seen by a step that starts polling at instant t. -/
def shiftTrace (trace : Trace) (t : Nat) : Trace := fun n => trace (t + n)

/-- Python str.strip() with no argument: remove leading and trailing whitespace. -/
def pyStrip (s : String) : String :=
  ⟨((s.data.dropWhile Char.isWhitespace).reverse.dropWhile Char.isWhitespace).reverse⟩

/-- Python str.lower() on the ASCII browser names this code handles. -/
def pyLower (s : String) : String := ⟨s.data.map Char.toLower⟩

/-- Python `timeout or default` for an optional non-negative integer: both None
and 0 are falsy, so both select the default (src/pages/base_page.py lines 42,
71, 98). -/
def pyOrDefault (timeout : Option Nat) (d : Nat) : Nat :=
  match timeout with
  | none => d
  | some 0 => d
  | some t => t

/-- Config.EXPLICIT_WAIT for every configured environment (src/config/config.py). -/
def EXPLICIT_WAIT : Nat := 10

/-- Config.IMPLICIT_WAIT for every configured environment (src/config/config.py). -/
def IMPLICIT_WAIT : Nat := 5

/-- Config.SCREENSHOT_DIR (src/config/config.py). -/
def SCREENSHOT_DIR : String := "screenshots"

/-- Config.BROWSER (src/config/config.py). -/
def BROWSER : String := "chrome"

/-- LoginPageSelectors.ERROR_MESSAGE (src/constants/selectors.py). -/
def ERROR_MESSAGE : String := ".oxd-alert-content-text, .oxd-text--p"

/-- LoginPageSelectors.REQUIRED_ERROR (src/constants/selectors.py). -/
def REQUIRED_ERROR : String := ".oxd-input-field-error-message, .oxd-text--p"

/-- LoginPageSelectors.DASHBOARD (src/constants/selectors.py). -/
def DASHBOARD : String := ".oxd-topbar-header-breadcrumb"

/-- DashboardPageSelectors.MENU_ITEMS value (src/constants/selectors.py). -/
def MENU_ITEMS : String := ".oxd-main-menu-item"

/-- The dashboard URL marker checked by login_page.py. -/
def DASHBOARD_MARKER : String := "/dashboard/index"

/-- WebDriverWait.until: poll the condition at instants t, t+1, ... while fuel
remains. A condition that raises NoSuchElementException is treated as not yet
satisfied (selenium's default ignored exception); any other exception propagates
immediately; exhausted fuel raises TimeoutException. On success the hit instant
is returned together with the condition's value. -/
def waitLoop {α : Type} (trace : Trace) (cond : Snapshot → Except PyError (Option α)) :
    Nat → Nat → Except PyError (Nat × α)
  | 0, _ => .error .timeoutException
  | fuel + 1, t =>
    match cond (trace t) with
    | .ok (some a) => .ok (t, a)
    | .ok none => waitLoop trace cond fuel (t + 1)
    | .error .noSuchElement => waitLoop trace cond fuel (t + 1)
    | .error e => .error e

/-- WebDriverWait(driver, timeout).until(cond), polling from instant 0: the
condition is evaluated at least once even for timeout 0. -/
def waitUntil {α : Type} (trace : Trace) (timeout : Nat)
    (cond : Snapshot → Except PyError (Option α)) : Except PyError (Nat × α) :=
  waitLoop trace cond (timeout + 1) 0

/-- EC.visibility_of_element_located: locate the first element matching the
selector (NoSuchElementException when none) and yield it only once displayed. -/
def visibilityCond (selector : String) (s : Snapshot) : Except PyError (Option Element) :=
  match s.query selector with
  | .error e => .error e
  | .ok [] => .error .noSuchElement
  | .ok (e :: _) => .ok (if e.visible then some e else none)

/-- EC.element_to_be_clickable: the first matching element once it is both
displayed and enabled. -/
def clickableCond (selector : String) (s : Snapshot) : Except PyError (Option Element) :=
  match s.query selector with
  | .error e => .error e
  | .ok [] => .error .noSuchElement
  | .ok (e :: _) => .ok (if e.visible && e.enabled then some e else none)

/-- EC.presence_of_all_elements_located: all matching elements, falsy (keep
polling) while the list is empty. -/
def presenceAllCond (selector : String) (s : Snapshot) : Except PyError (Option (List Element)) :=
  match s.query selector with
  | .error e => .error e
  | .ok [] => .ok none
  | .ok (e :: es) => .ok (some (e :: es))

/-- BasePage.find_element (src/pages/base_page.py lines 27-57): wait for
visibility under `timeout or Config.EXPLICIT_WAIT`; both except clauses log and
re-raise the original exception unchanged. -/
def find_element (trace : Trace) (selector : String) (timeout : Option Nat) :
    Except PyError Element :=
  match waitUntil trace (pyOrDefault timeout EXPLICIT_WAIT) (visibilityCond selector) with
  | .ok (_, e) => .ok e
  | .error e => .error e

/-- BasePage.find_elements (src/pages/base_page.py lines 59-84): wait for
presence of all elements under `timeout or Config.EXPLICIT_WAIT`; both the
TimeoutException clause and the generic Exception clause return the empty list. -/
def find_elements (trace : Trace) (selector : String) (timeout : Option Nat) :
    Except PyError (List Element) :=
  match waitUntil trace (pyOrDefault timeout EXPLICIT_WAIT) (presenceAllCond selector) with
  | .ok (_, es) => .ok es
  | .error .timeoutException => .ok []
  | .error _ => .ok []

/-- BasePage.wait_for_element_to_be_clickable (src/pages/base_page.py lines
86-111): wait for clickability under `timeout or Config.EXPLICIT_WAIT`; both
except clauses log and re-raise the original exception unchanged. -/
def wait_for_element_to_be_clickable (trace : Trace) (selector : String)
    (timeout : Option Nat) : Except PyError Element :=
  match waitUntil trace (pyOrDefault timeout EXPLICIT_WAIT) (clickableCond selector) with
  | .ok (_, e) => .ok e
  | .error e => .error e

/-- BasePage.is_element_present (src/pages/base_page.py lines 113-131): True when
find_element succeeds, False on TimeoutException or NoSuchElementException, and
False again under the final generic Exception clause. -/
def is_element_present (trace : Trace) (selector : String) (timeout : Option Nat) :
    Except PyError Bool :=
  match find_element trace selector timeout with
  | .ok _ => .ok true
  | .error .timeoutException => .ok false
  | .error .noSuchElement => .ok false
  | .error _ => .ok false

/-- BasePage.get_text (src/pages/base_page.py lines 133-150): the text of
find_element's result, or the empty string under the generic Exception clause. -/
def get_text (trace : Trace) (selector : String) : Except PyError String :=
  match find_element trace selector none with
  | .ok e => .ok e.text
  | .error _ => .ok ""

/-- element.click(): the element's click primitive either succeeds or raises its
recorded fault. -/
def clickElement (e : Element) : Except PyError Unit :=
  match e.clickFault with
  | some err => .error err
  | none => .ok ()

/-- BasePage.click (src/pages/base_page.py lines 169-182): resolve the element
via wait_for_element_to_be_clickable, invoke its click primitive; the except
clause logs and re-raises the original exception unchanged. -/
def click (trace : Trace) (selector : String) : Except PyError Unit :=
  match wait_for_element_to_be_clickable trace selector none with
  | .ok e => clickElement e
  | .error err => .error err

/-- Python module-level name resolution: evaluating a free name raises NameError
unless the module's environment binds it. -/
def lookupModuleName (env : List String) (n : String) : Except PyError Unit :=
  if env.contains n then .ok () else .error (.nameError n)

/-- The module-level names bound in src/pages/base_page.py: its imports (lines
4-13) and the class it defines. Neither os nor datetime is among them. -/
def basePageModuleNames : List String :=
  ["Optional", "List", "WebDriver", "WebElement", "WebDriverWait", "EC", "By",
   "TimeoutException", "NoSuchElementException", "logger", "Config", "BasePage"]

/-- The module-level names bound in src/pages/dashboard_page.py: its imports
(lines 4-8) and the class it defines. By is not among them. -/
def dashboardPageModuleNames : List String :=
  ["List", "Optional", "WebDriver", "BasePage", "DashboardPageSelectors",
   "DashboardPage"]

/-- BasePage.take_screenshot (src/pages/base_page.py lines 184-203): its first
statement evaluates os.path.exists, so the name os is resolved first; then
datetime; only then is the directory ensured and the file
dir/name_timestamp.png written (dirWritable abstracts whether the directory can
be created and the write succeeds). -/
def take_screenshot (dirWritable : Bool) (name : Option String) (timestamp : String) :
    Except PyError String :=
  match lookupModuleName basePageModuleNames "os" with
  | .error e => .error e
  | .ok _ =>
    match lookupModuleName basePageModuleNames "datetime" with
    | .error e => .error e
    | .ok _ =>
      if dirWritable then
        .ok (SCREENSHOT_DIR ++ "/" ++ name.getD "screenshot" ++ "_" ++ timestamp ++ ".png")
      else
        .error (.other "OSError")

/-- DashboardPage.get_menu_items (src/pages/dashboard_page.py lines 37-48): it
evaluates By.CSS_SELECTOR, resolving the name By against the module environment,
then returns the texts of the raw query's matches. -/
def get_menu_items (trace : Trace) : Except PyError (List String) :=
  match lookupModuleName dashboardPageModuleNames "By" with
  | .error e => .error e
  | .ok _ =>
    match (trace 0).query MENU_ITEMS with
    | .error e => .error e
    | .ok es => .ok (es.map (fun e => e.text))

/-- Python's substring operator `needle in hay` on the character lists. -/
def strContainsFrom (needle : List Char) : List Char → Bool
  | [] => needle.isPrefixOf []
  | c :: cs => needle.isPrefixOf (c :: cs) || strContainsFrom needle cs

/-- Python's `needle in hay` on strings. -/
def strContains (hay needle : String) : Bool := strContainsFrom needle.data hay.data

/-- The lambda condition of is_login_successful (src/pages/login_page.py lines
129-131): the current URL contains the dashboard marker. -/
def urlHasDashboardCond (s : Snapshot) : Except PyError (Option Unit) :=
  .ok (if strContains s.url DASHBOARD_MARKER then some () else none)

/-- LoginPage.is_login_successful (src/pages/login_page.py lines 120-141): wait
up to Config.IMPLICIT_WAIT for the dashboard URL marker, then resolve the
dashboard element with find_element (default timeout); bool(element) of a found
element is True; TimeoutException and NoSuchElementException yield False, and the
generic Exception clause yields False as well. This helper is the second stage:
the dashboard element check starting at the instant the URL wait succeeded. -/
def loginCheckAfterUrl (trace : Trace) (t : Nat) : Except PyError Bool :=
  match find_element (shiftTrace trace t) DASHBOARD none with
  | .ok _ => .ok true
  | .error .timeoutException => .ok false
  | .error .noSuchElement => .ok false
  | .error _ => .ok false

/-- LoginPage.is_login_successful (src/pages/login_page.py lines 120-141): the
URL wait bounded by Config.IMPLICIT_WAIT, then loginCheckAfterUrl. -/
def is_login_successful (trace : Trace) : Except PyError Bool :=
  match waitUntil trace IMPLICIT_WAIT urlHasDashboardCond with
  | .error .timeoutException => .ok false
  | .error .noSuchElement => .ok false
  | .error _ => .ok false
  | .ok (t, _) => loginCheckAfterUrl trace t

/-- The lambda condition of get_error_message (src/pages/login_page.py lines
96-99): some element matches the alert selector, or (short-circuit) some element
matches the required-field selector. -/
def errorPresentCond (s : Snapshot) : Except PyError (Option Unit) :=
  match s.query ERROR_MESSAGE with
  | .error e => .error e
  | .ok l1 =>
    if 0 < l1.length then .ok (some ()) else
      match s.query REQUIRED_ERROR with
      | .error e => .error e
      | .ok l2 => if 0 < l2.length then .ok (some ()) else .ok none

/-- LoginPage.get_error_message (src/pages/login_page.py lines 87-118): wait up
to Config.IMPLICIT_WAIT for either selector to match; then, at the instant the
wait succeeded, return the stripped text of the first alert element if the alert
selector matches anything, else the stripped text of the first required-field
element if that selector matches anything, else the empty string; the
TimeoutException clause and the generic Exception clause both return the empty
string. This helper is the post-wait stage, reading the page at one instant. -/
def errorTextAt (s : Snapshot) : Except PyError String :=
  match s.query ERROR_MESSAGE with
  | .error _ => .ok ""
  | .ok (e :: _) => .ok (pyStrip e.text)
  | .ok [] =>
    match s.query REQUIRED_ERROR with
    | .error _ => .ok ""
    | .ok (e :: _) => .ok (pyStrip e.text)
    | .ok [] => .ok ""

/-- LoginPage.get_error_message, assembled: the shared wait bounded by
Config.IMPLICIT_WAIT, then errorTextAt at the instant the wait succeeded. -/
def get_error_message (trace : Trace) : Except PyError String :=
  match waitUntil trace IMPLICIT_WAIT errorPresentCond with
  | .error _ => .ok ""
  | .ok (t, _) => errorTextAt (trace t)

/-- The elements a raw query yields, or none on a query fault. -/
def queryOrNil (s : Snapshot) (selector : String) : List Element :=
  match s.query selector with
  | .ok l => l
  | .error _ => []

/-- Modelled from the spec wording of get_error_message, for comparison with the
code: "returns the first non-empty text found, checking alert before
field-validation" — the first non-empty stripped text among the alert elements
followed by the required-field elements, or the empty string. -/
def specGetErrorMessageAt (s : Snapshot) : String :=
  ((((queryOrNil s ERROR_MESSAGE) ++ (queryOrNil s REQUIRED_ERROR)).map
      (fun e => pyStrip e.text)).filter (fun t => t != "")).headD ""

/-- The browser implementations DriverManager can dispatch to. -/
inductive Browser where
  | chrome
  | firefox
  | edge
deriving DecidableEq, Repr

/-- The first line of DriverManager.create_driver (src/utils/driver_manager.py
line 136): `browser_name or Config.BROWSER.lower()` — an explicit non-empty
argument is kept as is (not lowercased); None and the falsy empty string fall
back to the lowercased configured default. -/
def effectiveBrowserName (browserName : Option String) : String :=
  match browserName with
  | none => pyLower BROWSER
  | some s => if s = "" then pyLower BROWSER else s

/-- DriverManager.create_driver's dispatch (src/utils/driver_manager.py lines
136-147): chrome, firefox and edge select the corresponding driver constructor;
any other effective name raises ValueError naming the unsupported browser before
any driver is created. -/
def create_driver (browserName : Option String) : Except PyError Browser :=
  if effectiveBrowserName browserName = "chrome" then .ok .chrome
  else if effectiveBrowserName browserName = "firefox" then .ok .firefox
  else if effectiveBrowserName browserName = "edge" then .ok .edge
  else .error (.valueError ("Unsupported browser: " ++ effectiveBrowserName browserName))

/-- Recognises the spec's ActionFailed errors. -/
def isActionFailedErr : PyError → Bool
  | .actionFailed _ _ => true
  | _ => false

/-- A page whose every query matches nothing. -/
def emptySnapshot : Snapshot := { url := "", query := fun _ => .ok [] }

/-- A trace that stays on the empty page. -/
def emptyTrace : Trace := fun _ => emptySnapshot

/-- An alert element whose text is empty. -/
def blankAlertElem : Element := { text := "", visible := true, enabled := true }

/-- A required-field validation element with non-empty text. -/
def requiredElem : Element := { text := "Required", visible := true, enabled := true }

/-- A login page showing an empty-text alert together with a Required validation
message. -/
def blankAlertSnapshot : Snapshot :=
  { url := "https://opensource-demo.orangehrmlive.com/web/index.php/auth/login"
    query := fun sel =>
      if sel = ERROR_MESSAGE then .ok [blankAlertElem]
      else if sel = REQUIRED_ERROR then .ok [requiredElem]
      else .ok [] }

/-- The trace that stays on blankAlertSnapshot. -/
def blankAlertTrace : Trace := fun _ => blankAlertSnapshot

/-- An alert element carrying a real error text. -/
def invalidCredElem : Element :=
  { text := "Invalid credentials", visible := true, enabled := true }

/-- A trace on which the alert selector matches invalidCredElem. -/
def alertTrace : Trace := fun _ =>
  { url := "", query := fun sel => if sel = ERROR_MESSAGE then .ok [invalidCredElem] else .ok [] }

/-- A clickable button whose click primitive raises an interception error. -/
def interceptedElem : Element :=
  { text := "", visible := true, enabled := true,
    clickFault := some (.other "ElementClickInterceptedException") }

/-- A trace on which the selector .btn resolves to interceptedElem. -/
def interceptedTrace : Trace := fun _ =>
  { url := "", query := fun sel => if sel = ".btn" then .ok [interceptedElem] else .ok [] }


theorem waitLoop_never {α : Type} (trace : Trace) (cond : Snapshot → Except PyError (Option α)) :
    ∀ fuel t, (∀ i, i < fuel → cond (trace (t + i)) = Except.ok none) →
    waitLoop trace cond fuel t = Except.error PyError.timeoutException := by
  intro fuel
  induction fuel with
  | zero => intro t _; rfl
  | succ n ih =>
    intro t h
    have h0 : cond (trace t) = Except.ok none := by
      have := h 0 (Nat.succ_pos n)
      simpa using this
    have hrec : waitLoop trace cond n (t + 1) = Except.error PyError.timeoutException := by
      apply ih
      intro i hi
      have := h (i + 1) (Nat.succ_lt_succ hi)
      simpa [Nat.add_assoc, Nat.add_comm 1 i] using this
    simp [waitLoop, h0, hrec]

theorem waitUntil_never {α : Type} (trace : Trace) (timeout : Nat)
    (cond : Snapshot → Except PyError (Option α))
    (h : ∀ i, i ≤ timeout → cond (trace i) = Except.ok none) :
    waitUntil trace timeout cond = Except.error PyError.timeoutException := by
  apply waitLoop_never
  intro i hi
  have := h i (Nat.lt_succ_iff.mp hi)
  simpa using this

/-- C5: for find_element, find_elements, wait_for_element_to_be_clickable and
is_element_present, passing timeout 0 behaves identically to passing no timeout
at all, because the falsy 0 falls through `timeout or Config.EXPLICIT_WAIT` to
the configured default explicit wait, which is 10 seconds. -/
theorem timeout_zero_uses_default_wait (trace : Trace) (selector : String) :
    find_element trace selector (some 0) = find_element trace selector none ∧
    find_elements trace selector (some 0) = find_elements trace selector none ∧
    wait_for_element_to_be_clickable trace selector (some 0) =
      wait_for_element_to_be_clickable trace selector none ∧
    is_element_present trace selector (some 0) = is_element_present trace selector none ∧
    EXPLICIT_WAIT = 10 :=
  ⟨rfl, rfl, rfl, rfl, rfl⟩

/-- C6: is_element_present always returns a boolean outcome and never surfaces an
error, for every trace (including traces whose raw queries fault), selector and
timeout. -/
theorem is_element_present_never_raises (trace : Trace) (selector : String)
    (timeout : Option Nat) :
    ∃ b : Bool, is_element_present trace selector timeout = Except.ok b := by
  unfold is_element_present
  cases h : find_element trace selector timeout with
  | ok e => exact ⟨true, rfl⟩
  | error e => cases e <;> exact ⟨false, rfl⟩

/-- C9: find_elements never fails — it always yields an ok list — and on a
selector whose query matches zero elements at every polled instant it returns
the empty list. -/
theorem find_elements_empty_on_no_match (trace : Trace) (selector : String)
    (timeout : Option Nat) :
    (∃ l, find_elements trace selector timeout = Except.ok l) ∧
    ((∀ t, (trace t).query selector = Except.ok []) →
      find_elements trace selector timeout = Except.ok []) := by
  constructor
  · unfold find_elements
    cases h : waitUntil trace (pyOrDefault timeout EXPLICIT_WAIT) (presenceAllCond selector) with
    | ok p => exact ⟨p.2, rfl⟩
    | error e => cases e <;> exact ⟨[], rfl⟩
  · intro h
    have hw : waitUntil trace (pyOrDefault timeout EXPLICIT_WAIT) (presenceAllCond selector) =
        Except.error PyError.timeoutException := by
      apply waitUntil_never
      intro i _
      simp [presenceAllCond, h i]
    unfold find_elements
    rw [hw]

/-- C9 witness: on the always-empty page, looking up the menu-item selector
yields the empty list. -/
theorem find_elements_empty_on_no_match_witness :
    find_elements emptyTrace ".oxd-main-menu-item" none = Except.ok [] :=
  (find_elements_empty_on_no_match emptyTrace ".oxd-main-menu-item" none).2 (fun _ => rfl)

/-- C8: whenever the single-element lookup fails, get_text returns the empty
string instead of propagating the failure. -/
theorem get_text_empty_on_failure (trace : Trace) (selector : String) (e : PyError)
    (h : find_element trace selector none = Except.error e) :
    get_text trace selector = Except.ok "" := by
  unfold get_text
  rw [h]

/-- C8 witness: on the always-empty page the lookup times out and get_text
returns the empty string. -/
theorem get_text_empty_on_failure_witness : get_text emptyTrace ".x" = Except.ok "" :=
  get_text_empty_on_failure emptyTrace ".x" PyError.timeoutException rfl

/-- C7: is_login_successful first waits — bounded by the implicit-wait timeout —
for the URL to contain the dashboard marker, then confirms the dashboard element
via find_element; it always returns a boolean, returning false whenever the URL
wait never sees the marker within the bound or the element lookup fails, and
true when both steps succeed. -/
theorem is_login_successful_boolean_predicate (trace : Trace) :
    (∃ b : Bool, is_login_successful trace = Except.ok b) ∧
    ((∀ t, t ≤ IMPLICIT_WAIT → strContains (trace t).url DASHBOARD_MARKER = false) →
      is_login_successful trace = Except.ok false) ∧
    (∀ t u e, waitUntil trace IMPLICIT_WAIT urlHasDashboardCond = Except.ok (t, u) →
      find_element (shiftTrace trace t) DASHBOARD none = Except.error e →
      is_login_successful trace = Except.ok false) ∧
    (∀ t u el, waitUntil trace IMPLICIT_WAIT urlHasDashboardCond = Except.ok (t, u) →
      find_element (shiftTrace trace t) DASHBOARD none = Except.ok el →
      is_login_successful trace = Except.ok true) := by
  refine ⟨?_, ?_, ?_, ?_⟩
  · unfold is_login_successful
    cases hw : waitUntil trace IMPLICIT_WAIT urlHasDashboardCond with
    | error e => cases e <;> exact ⟨false, rfl⟩
    | ok p =>
      obtain ⟨t, u⟩ := p
      show ∃ b : Bool, loginCheckAfterUrl trace t = Except.ok b
      unfold loginCheckAfterUrl
      cases hf : find_element (shiftTrace trace t) DASHBOARD none with
      | ok el => exact ⟨true, rfl⟩
      | error e => cases e <;> exact ⟨false, rfl⟩
  · intro h
    have hw : waitUntil trace IMPLICIT_WAIT urlHasDashboardCond =
        Except.error PyError.timeoutException := by
      apply waitUntil_never
      intro i hi
      simp [urlHasDashboardCond, h i hi]
    unfold is_login_successful
    rw [hw]
  · intro t u e hw hf
    unfold is_login_successful
    rw [hw]
    show loginCheckAfterUrl trace t = Except.ok false
    unfold loginCheckAfterUrl
    rw [hf]
    cases e <;> rfl
  · intro t u el hw hf
    unfold is_login_successful
    rw [hw]
    show loginCheckAfterUrl trace t = Except.ok true
    unfold loginCheckAfterUrl
    rw [hf]

/-- C7 witness: on the always-empty page the URL never contains the dashboard
marker and is_login_successful returns false. -/
theorem is_login_successful_boolean_predicate_witness :
    is_login_successful emptyTrace = Except.ok false :=
  (is_login_successful_boolean_predicate emptyTrace).2.1 (fun _ _ => rfl)

/-- C1 counterexample: on this concrete page the alert selector matches one
element with empty text while the required-field selector holds the non-empty
text "Required", so the first non-empty text found (checking alert before
field-validation, as the claim reads) is "Required" — yet get_error_message
returns the empty string, because it returns the stripped text of the first
element of the first selector that matches anything, without seeking a
non-empty text. -/
theorem get_error_message_not_first_nonempty :
    get_error_message blankAlertTrace = Except.ok "" ∧
    specGetErrorMessageAt blankAlertSnapshot = "Required" :=
  ⟨rfl, rfl⟩

/-- C1 amended: get_error_message races the alert and required-field selectors
under the single shared implicit-wait timeout; when the wait fails it returns
the empty string, and when it succeeds it returns the stripped text of the
first alert element if the alert selector matches any element — even when that
text is empty — otherwise the stripped text of the first required-field
element if that selector matches any, otherwise the empty string. -/
theorem get_error_message_first_present (trace : Trace) :
    (∀ e, waitUntil trace IMPLICIT_WAIT errorPresentCond = Except.error e →
      get_error_message trace = Except.ok "") ∧
    (∀ t u e l, waitUntil trace IMPLICIT_WAIT errorPresentCond = Except.ok (t, u) →
      (trace t).query ERROR_MESSAGE = Except.ok (e :: l) →
      get_error_message trace = Except.ok (pyStrip e.text)) ∧
    (∀ t u e l, waitUntil trace IMPLICIT_WAIT errorPresentCond = Except.ok (t, u) →
      (trace t).query ERROR_MESSAGE = Except.ok [] →
      (trace t).query REQUIRED_ERROR = Except.ok (e :: l) →
      get_error_message trace = Except.ok (pyStrip e.text)) := by
  refine ⟨?_, ?_, ?_⟩
  · intro e hw
    unfold get_error_message
    rw [hw]
  · intro t u e l hw hq
    unfold get_error_message
    rw [hw]
    show errorTextAt (trace t) = Except.ok (pyStrip e.text)
    unfold errorTextAt
    rw [hq]
  · intro t u e l hw hq1 hq2
    unfold get_error_message
    rw [hw]
    show errorTextAt (trace t) = Except.ok (pyStrip e.text)
    unfold errorTextAt
    rw [hq1, hq2]

/-- C1 amended witness: with an alert element reading "Invalid credentials" the
message is returned. -/
theorem get_error_message_first_present_witness :
    get_error_message alertTrace = Except.ok "Invalid credentials" :=
  (get_error_message_first_present alertTrace).2.1 0 () invalidCredElem [] rfl rfl

/-- C4 counterexample: on this concrete page the click primitive of the resolved
element raises an interception error, and click surfaces that underlying
exception itself, unchanged — not an ActionFailed value carrying the selector
and cause as the claim states. -/
theorem click_not_wrapped_in_action_failed :
    click interceptedTrace ".btn" =
      Except.error (PyError.other "ElementClickInterceptedException") ∧
    isActionFailedErr (PyError.other "ElementClickInterceptedException") = false :=
  ⟨rfl, rfl⟩

/-- C4 amended: click fails exactly with the underlying fault, re-raised
unchanged — the wait error when the element never becomes clickable, or the
click primitive's own fault; the selector is only logged, never attached to the
surfaced error. -/
theorem click_propagates_underlying (trace : Trace) (selector : String) (e : PyError) :
    click trace selector = Except.error e ↔
      (wait_for_element_to_be_clickable trace selector none = Except.error e ∨
        ∃ el, wait_for_element_to_be_clickable trace selector none = Except.ok el ∧
          el.clickFault = some e) := by
  unfold click
  cases h : wait_for_element_to_be_clickable trace selector none with
  | ok el =>
    unfold clickElement
    cases hf : el.clickFault with
    | none => simp [hf]
    | some err => simp [hf]
  | error err => simp

/-- C4 amended witness: on the always-empty page the clickability wait times out
and click surfaces that timeout itself. -/
theorem click_propagates_underlying_witness :
    click emptyTrace ".btn" = Except.error PyError.timeoutException :=
  (click_propagates_underlying emptyTrace ".btn" PyError.timeoutException).mpr (Or.inl rfl)

/-- C10 counterexample: the empty browser name lowercases to a string that is
none of chrome, firefox or edge, yet create_driver raises no ValueError — the
falsy empty string falls through `browser_name or Config.BROWSER.lower()` to the
configured default and a chrome driver is created. -/
theorem create_driver_empty_name_no_error :
    create_driver (some "") = Except.ok Browser.chrome ∧
    pyLower "" ≠ "chrome" ∧ pyLower "" ≠ "firefox" ∧ pyLower "" ≠ "edge" := by
  refine ⟨rfl, ?_, ?_, ?_⟩ <;> decide

/-- C10 amended: for every non-empty browser name whose lowercase form is none
of chrome, firefox or edge, create_driver raises ValueError identifying the
unsupported browser, and no driver is created; the empty string instead falls
back to the configured default browser. -/
theorem create_driver_unsupported (s : String) (hne : s ≠ "")
    (hc : pyLower s ≠ "chrome") (hf : pyLower s ≠ "firefox") (he : pyLower s ≠ "edge") :
    create_driver (some s) =
      Except.error (PyError.valueError ("Unsupported browser: " ++ s)) := by
  have hsc : s ≠ "chrome" := fun h => hc (by rw [h]; rfl)
  have hsf : s ≠ "firefox" := fun h => hf (by rw [h]; rfl)
  have hse : s ≠ "edge" := fun h => he (by rw [h]; rfl)
  have heff : effectiveBrowserName (some s) = s := by
    unfold effectiveBrowserName
    simp [hne]
  unfold create_driver
  rw [heff]
  simp [hsc, hsf, hse]

/-- C10 amended witness: safari is rejected with a ValueError naming it. -/
theorem create_driver_unsupported_witness :
    create_driver (some "safari") =
      Except.error (PyError.valueError "Unsupported browser: safari") :=
  create_driver_unsupported "safari" (by decide) (by decide) (by decide) (by decide)

/-- C2: the claim matches the spec, but the code cannot perform it — the first
statement of take_screenshot evaluates os.path.exists, and src/pages/base_page.py
never imports os (nor datetime), so every call raises NameError before any
directory is created or any file written, for every name, timestamp and
filesystem condition. -/
theorem take_screenshot_always_name_error (dirWritable : Bool) (name : Option String)
    (timestamp : String) :
    take_screenshot dirWritable name timestamp = Except.error (PyError.nameError "os") :=
  rfl

/-- C3: the claim matches the spec, but the code cannot perform it —
get_menu_items evaluates By.CSS_SELECTOR, and src/pages/dashboard_page.py never
imports By, so every call raises NameError instead of returning the menu texts
or an empty sequence. -/
theorem get_menu_items_always_name_error (trace : Trace) :
    get_menu_items trace = Except.error (PyError.nameError "By") :=
  rfl
